import Mathlib

/-!
Verification of the permission core in `src/permissions/core.ts`
(atomicobject/typescript-permissions-demo).

The embedding models the JavaScript runtime values the core manipulates as
an inductive `JSValue` (undefined, null, booleans, numbers, strings and
plain objects given as ordered field lists), together with JavaScript
truthiness.  Each exported function of `core.ts` (`declare`, `ofType`,
`unsafeGrant`, `deny`, `isDenied`, `checker`, `asyncChecker`) is translated
directly; thrown `PermissionError`s and promise rejections are represented
with `Except` over a `JSError` sum.
-/

namespace TSPermissions

/-- `enum PermissionCategory` from core.ts: Unit permissions carry no
runtime data, Complex permissions carry a payload. -/
inductive PermissionCategory where
  | Unit
  | Complex
deriving DecidableEq, Repr

/-- A JavaScript runtime value, as far as the permission core inspects
values: the core only ever asks for truthiness, `typeof v === "object"`,
non-nullness and the presence of a `"denial"` property.  Objects are
ordered association lists of named fields. -/
inductive JSValue where
  | undefined : JSValue
  | null : JSValue
  | bool : Bool → JSValue
  | num : Int → JSValue
  | str : String → JSValue
  | obj : List (String × JSValue) → JSValue

/-- JavaScript truthiness: `undefined`, `null`, `false`, `0` and `""` are
falsy; every object (even `{}`) is truthy. -/
def truthy : JSValue → Bool
  | .undefined => false
  | .null => false
  | .bool b => b
  | .num n => n != 0
  | .str s => s != ""
  | .obj _ => true

/-- The `"denial" in x` test on an object's field list. -/
def hasField : List (String × JSValue) → String → Bool
  | [], _ => false
  | (k, _) :: rest, key => k == key || hasField rest key

/-- First field with the given name (JS property read on our object
literals); `undefined` when absent. -/
def getField : List (String × JSValue) → String → JSValue
  | [], _ => .undefined
  | (k, v) :: rest, key => if k == key then v else getField rest key

/-- `isDenied` from core.ts:
`(typeof perm === "object" && perm && "denial" in perm) || false`.
`typeof null === "object"` but the `perm &&` conjunct rejects `null`, so
only genuine objects owning a `denial` property qualify. -/
def isDenied : JSValue → Bool
  | .obj fields => hasField fields "denial"
  | _ => false

/-- Runtime content of a `PermissionType` descriptor
(`PermissionTypeRuntime` in core.ts): brand string and category.  The
payload shape exists only at the type level and has no runtime field. -/
structure PermissionType where
  _brand : String
  _category : PermissionCategory
deriving DecidableEq, Repr

/-- `ofType<T>()` from core.ts returns `{} as any`: an empty object used
purely as a compile-time shape carrier. -/
def ofType : JSValue := .obj []

/-- `declare` from core.ts.  The single implementation takes the optional
shape argument as a possibly-`undefined` value and branches on
`if (type)`, i.e. on its truthiness: a missing (undefined) shape gives a
Unit kind, a supplied shape object gives a Complex kind.  The returned
descriptor holds only `_brand` and `_category`. -/
def declare (brand : String) (type : JSValue) : PermissionType :=
  if truthy type then
    { _brand := brand, _category := .Complex }
  else
    { _brand := brand, _category := .Unit }

/-- `unsafeGrant` from core.ts:
`perm._category === PermissionCategory.Unit ? true : (data as any)`.
It constructs the instance directly from the kind descriptor and the
supplied payload; no verify function is ever involved (`unsafeGrant`
does not even receive one).  For the Unit overload the `data` argument
is absent, i.e. `undefined`. -/
def unsafeGrant (perm : PermissionType) (data : JSValue) : JSValue :=
  if perm._category = PermissionCategory.Unit then .bool true else data

/-- `deny` from core.ts: `{ denial: denial ?? "Permission denied" }`. -/
def deny (denial : Option String) : JSValue :=
  .obj [("denial", .str (denial.getD "Permission denied"))]

/-- Errors a checker operation can surface: a thrown `PermissionError`
(with its message) or, for the async variant, an arbitrary rejection
value propagated from `verify`. -/
inductive JSError where
  | permissionError : String → JSError
  | js : JSValue → JSError

/-- The object returned by `checker`: three synchronous operations over
the same argument list.  `test` and `check` never throw; `enforce` may
throw a `PermissionError`, modelled with `Except`. -/
structure PermissionChecker (α : Type) where
  test : α → JSValue
  check : α → JSValue
  enforce : α → Except JSError JSValue

/-- `checker` from core.ts, translated clause by clause:
`test` returns `!result || isDenied(result) ? null : result`;
`check` returns `result || deny()`;
`enforce` throws `` new PermissionError(`Didn't have permission "${perm._brand}"`) ``
when `isDenied(result) || !result`, else returns `result`. -/
def checker {α : Type} (perm : PermissionType) (func : α → JSValue) :
    PermissionChecker α where
  test := fun args =>
    let result := func args
    if !truthy result || isDenied result then .null else result
  check := fun args =>
    let result := func args
    if truthy result then result else deny none
  enforce := fun args =>
    let result := func args
    if isDenied result || !truthy result then
      .error (.permissionError ("Didn't have permission \"" ++ perm._brand ++ "\""))
    else
      .ok result

/-- The object returned by `asyncChecker`: every operation yields a
promise, modelled as `Except JSError JSValue` (resolved value or
rejection). -/
structure AsyncPermissionChecker (α : Type) where
  test : α → Except JSError JSValue
  check : α → Except JSError JSValue
  enforce : α → Except JSError JSValue

/-- `asyncChecker` from core.ts.  Each operation first awaits
`func(...args)`; a rejection of that promise propagates unchanged
(`await` rethrows it before any discrimination happens).  On a resolved
`result` the bodies are those of the sync checker: `test` returns
`isDenied(result) || !result ? null : result`, `check` returns
`result || deny()`, `enforce` throws the branded `PermissionError` when
`isDenied(result) || !result`. -/
def asyncChecker {α : Type} (perm : PermissionType)
    (func : α → Except JSError JSValue) : AsyncPermissionChecker α where
  test := fun args =>
    match func args with
    | .error e => .error e
    | .ok result =>
        .ok (if isDenied result || !truthy result then .null else result)
  check := fun args =>
    match func args with
    | .error e => .error e
    | .ok result => .ok (if truthy result then result else deny none)
  enforce := fun args =>
    match func args with
    | .error e => .error e
    | .ok result =>
        if isDenied result || !truthy result then
          .error (.permissionError ("Didn't have permission \"" ++ perm._brand ++ "\""))
        else
          .ok result

/-! ## Theorems about the claims -/

/-- Claim C1, as stated, is false: the claim quantifies over every payload
value `v` of the declared shape, including falsy values.  With the Complex
kind `declare "ViewDocument" ofType` and a verify returning the payload
`0` (a legitimate value of a numeric payload shape, not a Denial),
`test` returns `null` rather than the payload, and `enforce` throws
rather than returning it. -/
theorem C1_counterexample :
    (checker (declare "ViewDocument" ofType)
        (fun _ : Unit => JSValue.num 0)).test () = JSValue.null ∧
    JSValue.null ≠ JSValue.num 0 ∧
    isDenied (JSValue.num 0) = false ∧
    (checker (declare "ViewDocument" ofType)
        (fun _ : Unit => JSValue.num 0)).enforce ()
      = Except.error (JSError.permissionError
          "Didn't have permission \"ViewDocument\"") :=
  ⟨rfl, fun h => JSValue.noConfusion h, rfl, rfl⟩

/-- Claim C1, amended: for every declared Complex kind and every verify
function whose result on the given arguments is truthy and carries no
`denial` property, all three synchronous checker operations return that
exact result, unmodified. -/
theorem C1_complex_payload_passthrough (b : String) {α : Type}
    (func : α → JSValue) (args : α)
    (ht : truthy (func args) = true) (hd : isDenied (func args) = false) :
    (checker (declare b ofType) func).test args = func args ∧
    (checker (declare b ofType) func).check args = func args ∧
    (checker (declare b ofType) func).enforce args = Except.ok (func args) := by
  refine ⟨?_, ?_, ?_⟩ <;> simp [checker, ht, hd]

/-- Witness for C1 (amended) at the end-to-end example payload
`{documentId: 5}`. -/
theorem C1_complex_payload_passthrough_witness :
    (checker (declare "ViewDocument" ofType)
        (fun _ : Unit => JSValue.obj [("documentId", JSValue.num 5)])).test ()
      = JSValue.obj [("documentId", JSValue.num 5)] ∧
    (checker (declare "ViewDocument" ofType)
        (fun _ : Unit => JSValue.obj [("documentId", JSValue.num 5)])).check ()
      = JSValue.obj [("documentId", JSValue.num 5)] ∧
    (checker (declare "ViewDocument" ofType)
        (fun _ : Unit => JSValue.obj [("documentId", JSValue.num 5)])).enforce ()
      = Except.ok (JSValue.obj [("documentId", JSValue.num 5)]) :=
  C1_complex_payload_passthrough "ViewDocument"
    (fun _ : Unit => JSValue.obj [("documentId", JSValue.num 5)]) ()
    rfl rfl

/-- Claim C2: `isDenied` classifies every `deny`-produced value as a
Denial (for any optional reason) and never classifies the Unit success
value `true` as one; a verify returning a Denial makes `test` return
`null` and `enforce` throw — no checker operation hands the Denial back
as a successful instance. -/
theorem C2_discrimination (perm : PermissionType) {α : Type} (args : α)
    (r : Option String) :
    isDenied (deny r) = true ∧
    isDenied (JSValue.bool true) = false ∧
    (checker perm (fun _ : α => deny r)).test args = JSValue.null ∧
    (checker perm (fun _ : α => deny r)).enforce args
      = Except.error (JSError.permissionError
          ("Didn't have permission \"" ++ perm._brand ++ "\"")) :=
  ⟨rfl, rfl, rfl, rfl⟩

/-- Claim C3: for a declared Unit kind and a verify returning `false`,
`test` returns `null` without throwing, `check` returns a Denial, and
`enforce` throws a `PermissionError` whose message contains the kind's
brand string as a substring. -/
theorem C3_unit_denied (b : String) {α : Type} (args : α) :
    (checker (declare b JSValue.undefined)
        (fun _ : α => JSValue.bool false)).test args = JSValue.null ∧
    isDenied ((checker (declare b JSValue.undefined)
        (fun _ : α => JSValue.bool false)).check args) = true ∧
    ∃ s₁ s₂ : String,
      (checker (declare b JSValue.undefined)
          (fun _ : α => JSValue.bool false)).enforce args
        = Except.error (JSError.permissionError (s₁ ++ b ++ s₂)) :=
  ⟨rfl, rfl, "Didn't have permission \"", "\"", rfl⟩

/-- Claim C4: for a declared Unit kind and a verify returning `true`,
`test` and `check` both return the literal `true` (a truthy instance),
and `enforce` returns it without throwing. -/
theorem C4_unit_granted (b : String) {α : Type} (args : α) :
    (checker (declare b JSValue.undefined)
        (fun _ : α => JSValue.bool true)).test args = JSValue.bool true ∧
    (checker (declare b JSValue.undefined)
        (fun _ : α => JSValue.bool true)).check args = JSValue.bool true ∧
    truthy (JSValue.bool true) = true ∧
    (checker (declare b JSValue.undefined)
        (fun _ : α => JSValue.bool true)).enforce args
      = Except.ok (JSValue.bool true) :=
  ⟨rfl, rfl, rfl, rfl⟩

/-- Claim C5: when verify returns `deny(reason)`, `check` returns a
Denial whose `denial` field is exactly that string; when verify returns
any falsy value (bare `false`, `0`, …), `check` returns a Denial whose
`denial` field is the default `"Permission denied"`. -/
theorem C5_check_reasons (perm : PermissionType) {α : Type} (args : α)
    (reason : String) (v : JSValue) (hv : truthy v = false) :
    (checker perm (fun _ : α => deny (some reason))).check args
      = JSValue.obj [("denial", JSValue.str reason)] ∧
    (checker perm (fun _ : α => v)).check args
      = JSValue.obj [("denial", JSValue.str "Permission denied")] := by
  constructor
  · rfl
  · simp [checker, hv, deny]

/-- Witness for C5 at a Unit kind, `reason = "not the author"` and the
bare falsy return `false`. -/
theorem C5_check_reasons_witness :
    (checker (declare "ViewDocument" ofType)
        (fun _ : Unit => deny (some "not the author"))).check ()
      = JSValue.obj [("denial", JSValue.str "not the author")] ∧
    (checker (declare "ViewDocument" ofType)
        (fun _ : Unit => JSValue.bool false)).check ()
      = JSValue.obj [("denial", JSValue.str "Permission denied")] :=
  C5_check_reasons (declare "ViewDocument" ofType) () "not the author"
    (JSValue.bool false) rfl

/-- Claim C6: `unsafeGrant` is a total function of the kind descriptor
and payload alone — it takes no verify function, so none can be invoked.
On a declared Unit kind (payload argument absent, i.e. `undefined`) it
returns the literal `true`; on a declared Complex kind it returns the
supplied payload unchanged, whatever it is. -/
theorem C6_unsafeGrant (b : String) (v : JSValue) :
    unsafeGrant (declare b JSValue.undefined) JSValue.undefined
      = JSValue.bool true ∧
    unsafeGrant (declare b ofType) v = v :=
  ⟨rfl, rfl⟩

/-- Claim C7: for every kind and every resolved verify outcome `r`, the
async checker's operations agree with the sync checker built over a
verify returning `r`: `test` resolves to exactly the sync `test` result
(`null` on failure, the instance otherwise), `check` resolves to the
sync `check` result, and `enforce` resolves or rejects exactly as the
sync `enforce` returns or throws. -/
theorem C7_async_matches_sync (perm : PermissionType) {α : Type}
    (r : JSValue) (args : α) :
    (asyncChecker perm (fun _ : α => Except.ok r)).test args
      = Except.ok ((checker perm (fun _ : α => r)).test args) ∧
    (asyncChecker perm (fun _ : α => Except.ok r)).check args
      = Except.ok ((checker perm (fun _ : α => r)).check args) ∧
    (asyncChecker perm (fun _ : α => Except.ok r)).enforce args
      = (checker perm (fun _ : α => r)).enforce args := by
  refine ⟨?_, rfl, rfl⟩
  simp [checker, asyncChecker, Bool.or_comm]

/-- Claim C8: when the async verify rejects, each of `test`, `check` and
`enforce` propagates exactly that rejection; none of them turns it into
`null`, a Denial, or an instance. -/
theorem C8_rejection_propagates (perm : PermissionType) {α : Type}
    (e : JSError) (args : α) :
    (asyncChecker perm (fun _ : α => Except.error e)).test args
      = Except.error e ∧
    (asyncChecker perm (fun _ : α => Except.error e)).check args
      = Except.error e ∧
    (asyncChecker perm (fun _ : α => Except.error e)).enforce args
      = Except.error e :=
  ⟨rfl, rfl, rfl⟩

/-- Claim C9: `declare b` (no shape) yields exactly the descriptor
`{_brand := b, _category := Unit}` and `declare b ofType` yields exactly
`{_brand := b, _category := Complex}` — total pure equations, and the
equalities exhibit the full descriptor: its runtime fields are only the
brand and the category, never the payload shape. -/
theorem C9_declare (b : String) :
    declare b JSValue.undefined
      = { _brand := b, _category := PermissionCategory.Unit } ∧
    declare b ofType
      = { _brand := b, _category := PermissionCategory.Complex } :=
  ⟨rfl, rfl⟩

/-- Claim C10: `isDenied` is true exactly on (non-null) object values
owning a field named `denial`, whatever the other fields; consequently
the Complex payload `{denial: "overdue", documentId: 5}` — a successful,
truthy verify result that was not produced by `deny` — is treated as a
failure: `test` returns `null` and `enforce` throws. -/
theorem C10_isDenied_characterization :
    (∀ v : JSValue, isDenied v = true ↔
      ∃ fields, v = JSValue.obj fields ∧ hasField fields "denial" = true) ∧
    isDenied JSValue.null = false ∧
    truthy (JSValue.obj [("denial", JSValue.str "overdue"),
      ("documentId", JSValue.num 5)]) = true ∧
    (checker (declare "ViewDocument" ofType)
        (fun _ : Unit => JSValue.obj [("denial", JSValue.str "overdue"),
          ("documentId", JSValue.num 5)])).test () = JSValue.null ∧
    (checker (declare "ViewDocument" ofType)
        (fun _ : Unit => JSValue.obj [("denial", JSValue.str "overdue"),
          ("documentId", JSValue.num 5)])).enforce ()
      = Except.error (JSError.permissionError
          "Didn't have permission \"ViewDocument\"") := by
  refine ⟨?_, rfl, rfl, rfl, rfl⟩
  intro v
  cases v <;> simp [isDenied]

end TSPermissions
